import Mathlib

/-!
Shallow embedding of the classics server core (a Minecraft Classic 0.30
server) used to check the natural-language specification against the code.

Sources embedded here:
- src/src/level/block.rs            (block catalog)
- src/crates/internal/src/level.rs  (Level, index/coordinates, apply_updates)
- src/crates/internal/src/util.rs   (neighbor helpers)
- src/crates/server/src/server.rs   (tick loop body for a single index)
- src/src/packet.rs                 (string codec, packet writer)
- src/src/packet/server.rs          (ServerPacket, echo helpers, encoding)
- src/src/player.rs                 (PlayerType and its wire byte)
- src/src/server/network.rs         (outgoing-queue drain, SetBlock dispatch)

Machine integers are modelled as Nat / Int with explicit reductions where
overflow matters (`as i16` casts are via as_i16 below).  Rust panics are
modelled as `Except.error` with the panic message.  Rust slice indexing
`blocks[i]` is modelled with `List.getD _ _ 0`; the claims below only use it
under the spec invariant that the block array has length x*y*z, where the
default is never reached.
-/

/-- Permission levels, src/src/player.rs `PlayerType` (Normal < Moderator < Operator,
from the derived `Ord` on declaration order). -/
inductive PlayerType where
  | Normal
  | Moderator
  | Operator
deriving DecidableEq, Repr

/-- Rank used to model the derived `PartialOrd`/`Ord` of `PlayerType`. -/
def perm_rank : PlayerType → Nat
  | .Normal => 0
  | .Moderator => 1
  | .Operator => 2

/-- The `<` comparison on `PlayerType` (derived order in the source). -/
def perm_lt (a b : PlayerType) : Bool := perm_rank a < perm_rank b

/-- src/src/player.rs `impl From<&PlayerType> for u8`. -/
def player_type_to_u8 : PlayerType → Nat
  | .Normal => 0
  | .Moderator => 0x64
  | .Operator => 0x64

/-- src/crates/internal/src/level.rs `WeatherType`. -/
inductive WeatherType where
  | Sunny
  | Raining
  | Snowing
deriving DecidableEq, Repr

/-- src/crates/internal/src/level.rs `impl From<&WeatherType> for u8`. -/
def weather_to_u8 : WeatherType → Nat
  | .Sunny => 0
  | .Raining => 1
  | .Snowing => 2

/-- src/src/level/block.rs `BlockType`. -/
inductive BlockType where
  | Solid
  | NonSolid
  | Slab
  | FluidFlowing (stationary : Nat) (ticks_to_spread : Nat)
  | FluidStationary (moving : Nat)
  | Rope
deriving DecidableEq, Repr

/-- src/src/level/block.rs `BlockType::needs_update_on_place`. -/
def BlockType.needs_update_on_place : BlockType → Bool
  | .FluidFlowing _ _ => true
  | _ => false

/-- src/src/level/block.rs `BlockType::needs_update_when_neighbor_changed`. -/
def BlockType.needs_update_when_neighbor_changed : BlockType → Bool
  | .FluidStationary _ => true
  | _ => false

/-- src/src/level/block.rs `BlockInfo` (the interned string id is carried as a
plain string). -/
structure BlockInfo where
  str_id : String
  block_type : BlockType
  place_permissions : PlayerType
  break_permissions : PlayerType
  fallback : Option Nat
deriving DecidableEq, Repr

/-- src/src/level/block.rs `BlockInfo::new`. -/
def BlockInfo.new (s : String) : BlockInfo :=
  ⟨s, .Solid, .Normal, .Normal, none⟩

/-- src/src/level/block.rs builder `BlockInfo::block_type`. -/
def BlockInfo.btype (b : BlockInfo) (t : BlockType) : BlockInfo :=
  { b with block_type := t }

/-- src/src/level/block.rs builder `BlockInfo::perm`. -/
def BlockInfo.perm (b : BlockInfo) (place brk : PlayerType) : BlockInfo :=
  { b with place_permissions := place, break_permissions := brk }

/-- src/src/level/block.rs builder `BlockInfo::fallback`. -/
def BlockInfo.with_fallback (b : BlockInfo) (f : Nat) : BlockInfo :=
  { b with fallback := some f }

def ID_STONE : Nat := 0x01
def ID_GRASS : Nat := 0x02
def ID_DIRT : Nat := 0x03
def ID_WATER_FLOWING : Nat := 0x08
def ID_WATER_STATIONARY : Nat := 0x09
def ID_LAVA_FLOWING : Nat := 0x0a
def ID_LAVA_STATIONARY : Nat := 0x0b

def CUSTOM_BLOCKS_SUPPORT_LEVEL : Nat := 1

/-- src/src/level/block.rs `BLOCK_INFO`, as the underlying association list.
The internal crate's catalog (crates/internal/src/level/block.rs, whose file is
not under src/) is the same table per the spec's section 4.B; the claims cite
this copy. -/
def block_info_table : List (Nat × BlockInfo) := [
  (0x00, (BlockInfo.new "air").btype .NonSolid),
  (ID_STONE, BlockInfo.new "stone"),
  (0x02, BlockInfo.new "grass"),
  (0x03, BlockInfo.new "dirt"),
  (0x04, BlockInfo.new "cobblestone"),
  (0x05, BlockInfo.new "planks"),
  (0x06, (BlockInfo.new "sapling").btype .NonSolid),
  (0x07, (BlockInfo.new "bedrock").perm .Moderator .Moderator),
  (ID_WATER_FLOWING,
    (((BlockInfo.new "water_flowing").btype (.FluidFlowing 0x09 3)).perm
      .Moderator .Normal)),
  (ID_WATER_STATIONARY,
    (((BlockInfo.new "water_stationary").btype (.FluidStationary 0x08)).perm
      .Moderator .Normal)),
  (ID_LAVA_FLOWING,
    (((BlockInfo.new "lava_flowing").btype (.FluidFlowing 0x0b 15)).perm
      .Moderator .Normal)),
  (ID_LAVA_STATIONARY,
    (((BlockInfo.new "lava_stationary").btype (.FluidStationary 0x0a)).perm
      .Moderator .Normal)),
  (0x0c, BlockInfo.new "sand"),
  (0x0d, BlockInfo.new "gravel"),
  (0x0e, BlockInfo.new "gold_ore"),
  (0x0f, BlockInfo.new "iron_ore"),
  (0x10, BlockInfo.new "coal_ore"),
  (0x11, BlockInfo.new "wood"),
  (0x12, BlockInfo.new "leaves"),
  (0x13, BlockInfo.new "sponge"),
  (0x14, BlockInfo.new "glass"),
  (0x15, BlockInfo.new "cloth_red"),
  (0x16, BlockInfo.new "cloth_orange"),
  (0x17, BlockInfo.new "cloth_yellow"),
  (0x18, BlockInfo.new "cloth_chartreuse"),
  (0x19, BlockInfo.new "cloth_green"),
  (0x1a, BlockInfo.new "cloth_spring_green"),
  (0x1b, BlockInfo.new "cloth_cyan"),
  (0x1c, BlockInfo.new "cloth_capri"),
  (0x1d, BlockInfo.new "cloth_ultramarine"),
  (0x1e, BlockInfo.new "cloth_violet"),
  (0x1f, BlockInfo.new "cloth_purple"),
  (0x20, BlockInfo.new "cloth_magenta"),
  (0x21, BlockInfo.new "cloth_rose"),
  (0x22, BlockInfo.new "cloth_dark_gray"),
  (0x23, BlockInfo.new "cloth_light_gray"),
  (0x24, BlockInfo.new "cloth_white"),
  (0x25, (BlockInfo.new "flower").btype .NonSolid),
  (0x26, (BlockInfo.new "rose").btype .NonSolid),
  (0x27, (BlockInfo.new "brown_mushroom").btype .NonSolid),
  (0x28, (BlockInfo.new "red_mushroom").btype .NonSolid),
  (0x29, BlockInfo.new "gold_block"),
  (0x2a, BlockInfo.new "iron_block"),
  (0x2b, BlockInfo.new "double_slab"),
  (0x2c, (BlockInfo.new "slab").btype .Slab),
  (0x2d, BlockInfo.new "bricks"),
  (0x2e, BlockInfo.new "tnt"),
  (0x2f, BlockInfo.new "bookshelf"),
  (0x30, BlockInfo.new "mossy_cobblestone"),
  (0x31, BlockInfo.new "obsidian"),
  (0x32, ((BlockInfo.new "cobblestone_slab").btype .Slab).with_fallback 0x2c),
  (0x33, ((BlockInfo.new "rope").btype .Rope).with_fallback 0x27),
  (0x34, (BlockInfo.new "sandstone").with_fallback 0x0c),
  (0x35, ((BlockInfo.new "snow").btype .NonSolid).with_fallback 0x00),
  (0x36, ((BlockInfo.new "fire").btype .NonSolid).with_fallback 0x0a),
  (0x37, (BlockInfo.new "cloth_light_pink").with_fallback 0x21),
  (0x38, (BlockInfo.new "cloth_forest_green").with_fallback 0x19),
  (0x39, (BlockInfo.new "cloth_brown").with_fallback 0x03),
  (0x3a, (BlockInfo.new "cloth_deep_blue").with_fallback 0x1d),
  (0x3b, (BlockInfo.new "cloth_turquoise").with_fallback 0x1c),
  (0x3c, (BlockInfo.new "ice").with_fallback 0x14),
  (0x3d, (BlockInfo.new "ceramic_tile").with_fallback 0x2a),
  (0x3e, (BlockInfo.new "magma").with_fallback 0x31),
  (0x3f, (BlockInfo.new "pillar").with_fallback 0x24),
  (0x40, (BlockInfo.new "crate").with_fallback 0x05),
  (0x41, (BlockInfo.new "stone_brick").with_fallback 0x01)]

/-- `BLOCK_INFO.get(&id)`: lookup in the catalog map. -/
def BLOCK_INFO (id : Nat) : Option BlockInfo :=
  block_info_table.lookup id

/-- Modelled from the spec: per-player persisted data (`SavablePlayerData`,
crates/internal/src/player.rs, a file that is not under src/); the spec
describes it as a spawn-point override and similar persisted fields.  It is
carried opaquely by the level and never inspected by the embedded code. -/
structure SavablePlayerData where
  spawn : Option (Int × Int × Int × Nat × Nat)
deriving DecidableEq, Repr

/-- crates/internal/src/level.rs `LevelRules`. -/
structure LevelRules where
  fluid_spread : Bool
  random_tick_updates : Nat
  grass_spread_chance : Nat
deriving DecidableEq, Repr

/-- crates/internal/src/level.rs `impl Default for LevelRules`. -/
def LevelRules.default_rules : LevelRules :=
  ⟨true, 1000, 2048⟩

/-- crates/internal/src/level.rs `BlockUpdate`. -/
structure BlockUpdate where
  index : Nat
  block : Nat
deriving DecidableEq, Repr

/-- crates/internal/src/level.rs `Level`.  `BTreeSet<usize>` is modelled as a
strictly sorted list (see bset_insert); `Vec` fields are lists; the
`BTreeMap<String, SavablePlayerData>` is an association list.  The Level of
src/src/level.rs is the same structure minus rules, possible_random_updates
and player_data, with identical index / coordinates / get_block / set_block /
apply_updates code, so a single structure embeds both. -/
structure Level where
  x_size : Nat
  y_size : Nat
  z_size : Nat
  blocks : List Nat
  weather : WeatherType
  rules : LevelRules
  awaiting_update : List Nat
  possible_random_updates : List Nat
  updates : List BlockUpdate
  save_now : Bool
  player_data : List (String × SavablePlayerData)
deriving DecidableEq, Repr

/-- `BTreeSet::insert` on the sorted-list model of `BTreeSet<usize>`. -/
def bset_insert (i : Nat) : List Nat → List Nat
  | [] => [i]
  | x :: xs =>
    if i < x then i :: x :: xs
    else if i = x then x :: xs
    else x :: bset_insert i xs

/-- crates/internal/src/level.rs `Level::new`. -/
def Level.new (x_size y_size z_size : Nat) : Level :=
  { x_size := x_size
    y_size := y_size
    z_size := z_size
    blocks := List.replicate (x_size * y_size * z_size) 0
    weather := .Sunny
    rules := LevelRules.default_rules
    awaiting_update := []
    possible_random_updates := []
    updates := []
    save_now := false
    player_data := [] }

/-- crates/internal/src/level.rs `Level::index` (same in src/src/level.rs). -/
def Level.index (l : Level) (x y z : Nat) : Nat :=
  x + z * l.x_size + y * l.x_size * l.z_size

/-- crates/internal/src/level.rs `Level::coordinates` (same in
src/src/level.rs).  Note the source computes `x = index % self.z_size`. -/
def Level.coordinates (l : Level) (index : Nat) : Nat × Nat × Nat :=
  let y := index / (l.x_size * l.z_size)
  let z := (index / l.x_size) % l.z_size
  let x := index % l.z_size
  (x, y, z)

/-- crates/internal/src/level.rs `Level::get_block`; `self.blocks[idx]` with
the out-of-range panic replaced by the default 0 (never reached while the
block array has length x*y*z and the coordinates are in bounds). -/
def Level.get_block (l : Level) (x y z : Nat) : Nat :=
  l.blocks.getD (l.index x y z) 0

/-- crates/internal/src/level.rs `Level::set_block`. -/
def Level.set_block (l : Level) (x y z block : Nat) : Level :=
  { l with blocks := l.blocks.set (l.index x y z) block }

/-- Tail worker for `Vec::dedup_by(|a, b| a.index == b.index)`: Rust keeps the
first element of each run of consecutive elements with equal index (the
retained element is compared against each following candidate). -/
def dedup_tail (prev : BlockUpdate) : List BlockUpdate → List BlockUpdate
  | [] => []
  | u :: rest =>
    if u.index = prev.index then dedup_tail prev rest
    else u :: dedup_tail u rest

/-- `self.updates.dedup_by(|a, b| a.index == b.index)` from
`Level::apply_updates`. -/
def dedup_by_index : List BlockUpdate → List BlockUpdate
  | [] => []
  | u :: rest => u :: dedup_tail u rest

/-- Signed 16-bit reinterpretation of a usize, for the `as i16` casts in the
source. -/
def as_i16 (n : Nat) : Int :=
  let m := n % 65536
  if m < 32768 then (m : Int) else (m : Int) - 65536

/-- crates/internal/src/util.rs `NEIGHBORS`. -/
def NEIGHBORS : List (Int × Int × Int) :=
  [(0, 1, 0), (0, -1, 0), (-1, 0, 0), (1, 0, 0), (0, 0, -1), (0, 0, 1)]

/-- crates/internal/src/util.rs `get_relative_coords`:
`checked_add_signed` followed by the upper-bound check, per component. -/
def add_in_bounds (v : Nat) (r : Int) (bound : Nat) : Option Nat :=
  let s : Int := (v : Int) + r
  if 0 ≤ s then (if s.toNat < bound then some s.toNat else none) else none

/-- crates/internal/src/util.rs `get_relative_coords`. -/
def get_relative_coords (l : Level) (x y z : Nat) (rx ry rz : Int) :
    Option (Nat × Nat × Nat) := do
  let nx ← add_in_bounds x rx l.x_size
  let ny ← add_in_bounds y ry l.y_size
  let nz ← add_in_bounds z rz l.z_size
  pure (nx, ny, nz)

/-- crates/internal/src/util.rs `get_many_relative_coords`. -/
def get_many_relative_coords (l : Level) (x y z : Nat)
    (coords : List (Int × Int × Int)) : List (Nat × Nat × Nat) :=
  coords.filterMap (fun c => get_relative_coords l x y z c.1 c.2.1 c.2.2)

/-- crates/internal/src/util.rs `neighbors_minus_up`
(`NEIGHBORS.iter().skip(1)`). -/
def neighbors_minus_up (l : Level) (x y z : Nat) : List (Nat × Nat × Nat) :=
  get_many_relative_coords l x y z (NEIGHBORS.drop 1)

/-- crates/internal/src/util.rs `neighbors_with_vertical_diagonals`: the four
horizontal offsets, then the same four at y = -1, then at y = 1. -/
def neighbors_with_vertical_diagonals (l : Level) (x y z : Nat) :
    List (Nat × Nat × Nat) :=
  let horiz := NEIGHBORS.drop 2
  let down := horiz.map (fun c => (c.1, (-1 : Int), c.2.2))
  let up := horiz.map (fun c => (c.1, (1 : Int), c.2.2))
  get_many_relative_coords l x y z (horiz ++ down ++ up)

/-- crates/internal/src/util.rs `neighbors_full`: all 27 offsets of the cube,
x outermost and z innermost, including (0,0,0) itself. -/
def neighbors_full (l : Level) (x y z : Nat) : List (Nat × Nat × Nat) :=
  let r : List Int := [-1, 0, 1]
  get_many_relative_coords l x y z
    (r.flatMap (fun a => r.flatMap (fun b => r.map (fun c => (a, b, c)))))

/-- Placeholder for the fixed-point position payloads (`f16` in the source,
carrying `value * 32` on the wire); the claims never inspect these values, so
they are carried as the raw signed 16-bit wire integer. -/
abbrev F16 := Int

/-- src/src/packet/server.rs `ServerPacket`.  `LevelInitializePkt` is the
`LevelInitialize` variant of the source (renamed to keep tooling happy);
`teleport_behavior` is carried as its `u8` bit pattern. -/
inductive ServerPacket where
  | ServerIdentification (protocol_version : Nat) (server_name : String)
      (server_motd : String) (user_type : PlayerType)
  | Ping
  | LevelInitializePkt
  | LevelDataChunk (chunk_length : Int) (chunk_data : List Nat)
      (percent_complete : Nat)
  | LevelFinalize (x_size y_size z_size : Int)
  | SetBlock (x y z : Int) (block_type : Nat)
  | SpawnPlayer (player_id : Int) (player_name : String) (x y z : F16)
      (yaw pitch : Nat)
  | SetPositionOrientation (player_id : Int) (x y z : F16) (yaw pitch : Nat)
  | UpdatePositionOrientation (player_id : Int) (x_change y_change z_change : F16)
      (yaw pitch : Nat)
  | UpdatePosition (player_id : Int) (x_change y_change z_change : F16)
  | UpdateOrientation (player_id : Int) (yaw pitch : Nat)
  | DespawnPlayer (player_id : Int)
  | Message (player_id : Int) (message : String)
  | DisconnectPlayer (disconnect_reason : String)
  | UpdateUserType (user_type : PlayerType)
  | ExtInfoPkt
  | ExtEntry (ext_name : String) (version : Int)
  | CustomBlockSupportLevel
  | HoldThis (block : Nat) (prevent_change : Bool)
  | EnvWeatherType (weather_type : WeatherType)
  | SetInventoryOrder (order : Nat) (block : Nat)
  | SetSpawnPoint (spawn_x spawn_y spawn_z : F16) (spawn_yaw spawn_pitch : Nat)
  | ExtEntityTeleport (entity_id : Int) (teleport_behavior : Nat)
      (x y z : F16) (yaw pitch : Nat)
deriving DecidableEq, Repr

/-- src/src/packet/server.rs `ServerPacket::get_id`. -/
def ServerPacket.get_id : ServerPacket → Nat
  | .ServerIdentification _ _ _ _ => 0x00
  | .Ping => 0x01
  | .LevelInitializePkt => 0x02
  | .LevelDataChunk _ _ _ => 0x03
  | .LevelFinalize _ _ _ => 0x04
  | .SetBlock _ _ _ _ => 0x06
  | .SpawnPlayer _ _ _ _ _ _ _ => 0x07
  | .SetPositionOrientation _ _ _ _ _ _ => 0x08
  | .UpdatePositionOrientation _ _ _ _ _ _ => 0x09
  | .UpdatePosition _ _ _ _ => 0x0a
  | .UpdateOrientation _ _ _ => 0x0b
  | .DespawnPlayer _ => 0x0c
  | .Message _ _ => 0x0d
  | .DisconnectPlayer _ => 0x0e
  | .UpdateUserType _ => 0x0f
  | .ExtInfoPkt => 0x10
  | .ExtEntry _ _ => 0x11
  | .CustomBlockSupportLevel => 0x13
  | .HoldThis _ _ => 0x14
  | .EnvWeatherType _ => 0x1f
  | .SetInventoryOrder _ _ => 0x2c
  | .SetSpawnPoint _ _ _ _ _ => 0x2e
  | .ExtEntityTeleport _ _ _ _ _ _ _ => 0x36

/-- src/src/packet/server.rs `ServerPacket::get_player_id`. -/
def ServerPacket.get_player_id : ServerPacket → Option Int
  | .SpawnPlayer player_id _ _ _ _ _ _ => some player_id
  | .SetPositionOrientation player_id _ _ _ _ _ => some player_id
  | .UpdatePositionOrientation player_id _ _ _ _ _ => some player_id
  | .UpdatePosition player_id _ _ _ => some player_id
  | .UpdateOrientation player_id _ _ => some player_id
  | .DespawnPlayer player_id => some player_id
  | .Message player_id _ => some player_id
  | .ExtEntityTeleport entity_id _ _ _ _ _ _ => some entity_id
  | _ => none

/-- src/src/packet/server.rs `ServerPacket::set_player_id`. -/
def ServerPacket.set_player_id (p : ServerPacket) (new_player_id : Int) :
    ServerPacket :=
  match p with
  | .SpawnPlayer _ n x y z yw pt => .SpawnPlayer new_player_id n x y z yw pt
  | .SetPositionOrientation _ x y z yw pt =>
      .SetPositionOrientation new_player_id x y z yw pt
  | .UpdatePositionOrientation _ x y z yw pt =>
      .UpdatePositionOrientation new_player_id x y z yw pt
  | .UpdatePosition _ x y z => .UpdatePosition new_player_id x y z
  | .UpdateOrientation _ yw pt => .UpdateOrientation new_player_id yw pt
  | .DespawnPlayer _ => .DespawnPlayer new_player_id
  | .Message _ m => .Message new_player_id m
  | .ExtEntityTeleport _ tb x y z yw pt =>
      .ExtEntityTeleport new_player_id tb x y z yw pt
  | p => p

/-- src/src/packet/server.rs `ServerPacket::should_echo`. -/
def ServerPacket.should_echo : ServerPacket → Bool
  | .SetBlock _ _ _ _ => true
  | .SpawnPlayer _ _ _ _ _ _ _ => true
  | .Message _ _ => true
  | _ => false

/-- The neighbor-notification inner loop of `Level::apply_updates`
(crates/internal/src/level.rs lines 114-121): for each neighbor, look its
block up in the catalog (`expect("missing block")` becomes an error) and
schedule it when `needs_update_when_neighbor_changed`. -/
def neighbor_notify (ns : List (Nat × Nat × Nat)) (l : Level) :
    Except String Level :=
  match ns with
  | [] => .ok l
  | (nx, ny, nz) :: rest =>
    match BLOCK_INFO (l.get_block nx ny nz) with
    | none => .error "missing block"
    | some info =>
      if info.block_type.needs_update_when_neighbor_changed then
        neighbor_notify rest
          { l with awaiting_update := bset_insert (l.index nx ny nz) l.awaiting_update }
      else neighbor_notify rest l

/-- The drain loop of `Level::apply_updates` over the deduplicated update
list: write the block byte, emit the `SetBlock` packet, notify neighbors. -/
def apply_updates_loop (us : List BlockUpdate) (l : Level) :
    Except String (List ServerPacket × Level) :=
  match us with
  | [] => .ok ([], l)
  | u :: rest =>
    let c := l.coordinates u.index
    let l1 : Level := { l with blocks := l.blocks.set u.index u.block }
    let pkt := ServerPacket.SetBlock (as_i16 c.1) (as_i16 c.2.1) (as_i16 c.2.2) u.block
    match neighbor_notify (neighbors_full l1 c.1 c.2.1 c.2.2) l1 with
    | .error e => .error e
    | .ok l2 =>
      match apply_updates_loop rest l2 with
      | .error e => .error e
      | .ok (ps, lf) => .ok (pkt :: ps, lf)

/-- crates/internal/src/level.rs `Level::apply_updates` (identical code in
src/src/level.rs, which scans the six direct neighbors instead of the full
cube; the claims cite the internal copy embedded here). -/
def Level.apply_updates (l : Level) : Except String (List ServerPacket × Level) :=
  apply_updates_loop (dedup_by_index l.updates) { l with updates := [] }

/-- The per-packet filter of the outgoing-queue drain,
src/src/server/network.rs lines 556-567: packets carrying this player's own
id are dropped unless `should_echo`, in which case the id is rewritten to -1;
everything else is forwarded. -/
def drain_packets (own_id : Int) : List ServerPacket → List ServerPacket
  | [] => []
  | p :: rest =>
    match p.get_player_id with
    | some id =>
      if id = own_id then
        if p.should_echo then p.set_player_id (-1) :: drain_packets own_id rest
        else drain_packets own_id rest
      else p :: drain_packets own_id rest
    | none => p :: drain_packets own_id rest

/-- The set of packet kinds the spec's echo rule names (`SetBlock`,
`SpawnPlayer`, `Message`), written from the spec's words for comparison with
the code's composite drain behavior. -/
def spec_echo_kind : ServerPacket → Bool
  | .SetBlock _ _ _ _ => true
  | .SpawnPlayer _ _ _ _ _ _ _ => true
  | .Message _ _ => true
  | _ => false

/-- The whitespace predicate of Rust `char::is_whitespace`, restricted to the
code points 0..=255 that `u8 as char` can produce (ASCII whitespace plus
U+0085 and U+00A0). -/
def is_ws (c : Nat) : Bool :=
  c = 0x09 ∨ c = 0x0a ∨ c = 0x0b ∨ c = 0x0c ∨ c = 0x0d ∨ c = 0x20 ∨
    c = 0x85 ∨ c = 0xa0

/-- Rust `str::trim`: remove leading and trailing whitespace. -/
def trim_ws (l : List Nat) : List Nat :=
  ((l.dropWhile is_ws).reverse.dropWhile is_ws).reverse

/-- src/src/packet.rs `SafeBufExtension::try_get_string`: read exactly
`STRING_LENGTH` = 64 bytes (error if the buffer is shorter, as `try_get_u8`
returns `Truncated`), view each byte as a char, and `trim` the result.  The
decoded string is represented by its code points. -/
def try_get_string (buf : List Nat) : Except String (List Nat) :=
  if 64 ≤ buf.length then .ok (trim_ws (buf.take 64))
  else .error "Truncated"

/-- Modelled from the spec: decoding a 64-byte string field strips only the
TRAILING whitespace ("stripped of trailing whitespace on decode"). -/
def spec_strip_trailing (l : List Nat) : List Nat :=
  (l.reverse.dropWhile is_ws).reverse

/-- The byte buffer of src/src/packet.rs `PacketWriter`. -/
abbrev PacketWriter := List Nat

/-- The UTF-8 bytes of a string (`str::as_bytes`). -/
def string_bytes (s : String) : List Nat :=
  s.toUTF8.toList.map (fun b => b.toNat)

/-- src/src/packet.rs `PacketWriter::write_u8`. -/
def write_u8 (w : PacketWriter) (b : Nat) : PacketWriter := w ++ [b % 256]

/-- src/src/packet.rs `PacketWriter::write_i8` (`b as u8`). -/
def write_i8 (w : PacketWriter) (b : Int) : PacketWriter :=
  write_u8 w (b % 256).toNat

/-- src/src/packet.rs `PacketWriter::write_bool`. -/
def write_bool (w : PacketWriter) (b : Bool) : PacketWriter :=
  write_u8 w (if b then 1 else 0)

/-- src/src/packet.rs `PacketWriter::write_u16` (big endian). -/
def write_u16 (w : PacketWriter) (v : Nat) : PacketWriter :=
  write_u8 (write_u8 w (v / 256 % 256)) (v % 256)

/-- src/src/packet.rs `PacketWriter::write_i16` (`sh as u16`, big endian). -/
def write_i16 (w : PacketWriter) (v : Int) : PacketWriter :=
  write_u16 w (v % 65536).toNat

/-- src/src/packet.rs `PacketWriter::write_f16`; the `F16` model already
carries the scaled wire integer, so this is `write_i16`. -/
def write_f16 (w : PacketWriter) (v : F16) : PacketWriter := write_i16 w v

/-- src/src/packet.rs `PacketWriter::write_i32` (big endian, two's
complement). -/
def write_i32 (w : PacketWriter) (v : Int) : PacketWriter :=
  let u := (v % 4294967296).toNat
  write_u8 (write_u8 (write_u8 (write_u8 w (u / 16777216 % 256)) (u / 65536 % 256)) (u / 256 % 256)) (u % 256)

/-- src/src/packet.rs `PacketWriter::write_string`: the string's bytes chained
with a cycle of 0x20 padding, truncated to 64 bytes. -/
def write_string (w : PacketWriter) (s : String) : PacketWriter :=
  w ++ ((string_bytes s ++ List.replicate 64 0x20).take 64).map (fun b => b % 256)

/-- src/src/packet.rs `PacketWriter::write_array_of_length`. -/
def write_array_of_length (w : PacketWriter) (bytes : List Nat) (len : Nat) :
    PacketWriter :=
  w ++ (List.range len).map (fun i => bytes.getD i 0 % 256)

/-- src/src/packet.rs `PacketWriter::write_array` (`ARRAY_LENGTH` = 1024). -/
def write_array (w : PacketWriter) (bytes : List Nat) : PacketWriter :=
  write_array_of_length w bytes 1024

/-- crates/internal/src/lib.rs `SERVER_NAME`. -/
def SERVER_NAME : String := "classics"

/-- The `(name, version)` pairs of `ExtBitmask::all_contained_info` for the
extensions with an `info()` entry, src/src/packet.rs. -/
def supported_extensions : List (String × Int) :=
  [("CustomBlocks", 1), ("HeldBlock", 1), ("EmoteFix", 1), ("FullCP437", 1),
   ("EnvWeatherType", 1)]

/-- src/src/packet/server.rs `ServerPacket::write`. -/
def ServerPacket.write (p : ServerPacket) (w : PacketWriter) : PacketWriter :=
  match p with
  | .ServerIdentification pv name motd user_type =>
      write_u8 (write_string (write_string (write_u8 w pv) name) motd)
        (player_type_to_u8 user_type)
  | .Ping => w
  | .LevelInitializePkt => w
  | .LevelDataChunk len data pct => write_u8 (write_array (write_i16 w len) data) pct
  | .LevelFinalize xs ys zs => write_i16 (write_i16 (write_i16 w xs) ys) zs
  | .SetBlock x y z bt => write_u8 (write_i16 (write_i16 (write_i16 w x) y) z) bt
  | .SpawnPlayer pid name x y z yw pt =>
      write_u8 (write_u8 (write_f16 (write_f16 (write_f16 (write_string (write_i8 w pid) name) x) y) z) yw) pt
  | .SetPositionOrientation pid x y z yw pt =>
      write_u8 (write_u8 (write_f16 (write_f16 (write_f16 (write_i8 w pid) x) y) z) yw) pt
  | .UpdatePositionOrientation pid x y z yw pt =>
      write_u8 (write_u8 (write_f16 (write_f16 (write_f16 (write_i8 w pid) x) y) z) yw) pt
  | .UpdatePosition pid x y z =>
      write_f16 (write_f16 (write_f16 (write_i8 w pid) x) y) z
  | .UpdateOrientation pid yw pt => write_u8 (write_u8 (write_i8 w pid) yw) pt
  | .DespawnPlayer pid => write_i8 w pid
  | .Message pid msg => write_string (write_i8 w pid) msg
  | .DisconnectPlayer reason => write_string w reason
  | .UpdateUserType user_type => write_u8 w (player_type_to_u8 user_type)
  | .ExtInfoPkt =>
      write_i16 (write_string w SERVER_NAME) (supported_extensions.length : Int)
  | .ExtEntry name ver => write_i32 (write_string w name) ver
  | .CustomBlockSupportLevel => write_u8 w CUSTOM_BLOCKS_SUPPORT_LEVEL
  | .HoldThis block prevent => write_bool (write_u8 w block) prevent
  | .EnvWeatherType wt => write_u8 w (weather_to_u8 wt)
  | .SetInventoryOrder ord block => write_u8 (write_u8 w ord) block
  | .SetSpawnPoint x y z yw pt =>
      write_u8 (write_u8 (write_f16 (write_f16 (write_f16 w x) y) z) yw) pt
  | .ExtEntityTeleport eid tb x y z yw pt =>
      write_u8 (write_u8 (write_f16 (write_f16 (write_f16 (write_u8 (write_i8 w eid) tb) x) y) z) yw) pt

/-- The `turn_to_stone` match inside the tick's `FluidFlowing` arm,
crates/server/src/server.rs lines 300-311; the unreachable default arm panics
with "unimplemented fluid interactions". -/
def turn_to_stone (block_id id : Nat) : Except String Bool :=
  if block_id = ID_WATER_FLOWING ∨ block_id = ID_WATER_STATIONARY then
    .ok (id = ID_LAVA_FLOWING ∨ id = ID_LAVA_STATIONARY)
  else if block_id = ID_LAVA_FLOWING ∨ block_id = ID_LAVA_STATIONARY then
    .ok (id = ID_WATER_FLOWING ∨ id = ID_WATER_STATIONARY)
  else .error "unimplemented fluid interactions"

/-- The neighbor loop of the tick's `FluidFlowing` arm
(crates/server/src/server.rs lines 290-325): a `NonSolid` neighbor receives
the flowing id, an adjacent fluid goes through `turn_to_stone`, anything else
is skipped; every produced update also registers the neighbor's index in
`awaiting_update`. -/
def flow_scan (block_id : Nat) (ns : List (Nat × Nat × Nat)) (l : Level) :
    Except String Level :=
  match ns with
  | [] => .ok l
  | (nx, ny, nz) :: rest =>
    let id := l.get_block nx ny nz
    match BLOCK_INFO id with
    | none => .error "missing block"
    | some block_at =>
      let nindex := l.index nx ny nz
      match block_at.block_type with
      | .NonSolid =>
        flow_scan block_id rest
          { l with awaiting_update := bset_insert nindex l.awaiting_update,
                   updates := l.updates ++ [⟨nindex, block_id⟩] }
      | .FluidFlowing _ _ =>
        (match turn_to_stone block_id id with
         | .error e => .error e
         | .ok true =>
           flow_scan block_id rest
             { l with awaiting_update := bset_insert nindex l.awaiting_update,
                      updates := l.updates ++ [⟨nindex, ID_STONE⟩] }
         | .ok false => flow_scan block_id rest l)
      | .FluidStationary _ =>
        (match turn_to_stone block_id id with
         | .error e => .error e
         | .ok true =>
           flow_scan block_id rest
             { l with awaiting_update := bset_insert nindex l.awaiting_update,
                      updates := l.updates ++ [⟨nindex, ID_STONE⟩] }
         | .ok false => flow_scan block_id rest l)
      | _ => flow_scan block_id rest l

/-- `rng.gen_range(0..n)`: the random stream is an explicit list of draws,
each reduced into the requested range; `gen_range` on an empty range panics
in Rust. -/
def gen_range (rng : List Nat) (n : Nat) : Except String (Nat × List Nat) :=
  if n = 0 then .error "cannot sample empty range"
  else .ok (rng.headD 0 % n, rng.tail)

/-- The `is_none_or(|id| id == 0x00)` check above a dirt candidate in the
grass arm (crates/server/src/server.rs lines 238-241). -/
def is_air_above (l : Level) (nx ny nz : Nat) : Bool :=
  match get_relative_coords l nx ny nz 0 1 0 with
  | none => true
  | some (ax, ay, az) => l.get_block ax ay az = 0x00

/-- The dirt-neighbor loop of the tick's grass arm
(crates/server/src/server.rs lines 235-252); returns the final `dirt_count`,
the remaining random draws and the level. -/
def grass_scan (chance : Nat) (ns : List (Nat × Nat × Nat))
    (dirt_count : Nat) (rng : List Nat) (l : Level) :
    Except String (Nat × List Nat × Level) :=
  match ns with
  | [] => .ok (dirt_count, rng, l)
  | (nx, ny, nz) :: rest =>
    if l.get_block nx ny nz = ID_DIRT then
      if is_air_above l nx ny nz then
        match gen_range rng chance with
        | .error e => .error e
        | .ok (d, rng1) =>
          let dc := dirt_count + 1
          if d = 0 then
            grass_scan chance rest (dc - 1) rng1
              { l with updates := l.updates ++ [⟨l.index nx ny nz, ID_GRASS⟩] }
          else grass_scan chance rest dc rng1 l
      else grass_scan chance rest dirt_count rng l
    else grass_scan chance rest dirt_count rng l

/-- The grass-to-dirt reversion check above the grass block itself
(crates/server/src/server.rs lines 253-265). -/
def grass_self (chance : Nat) (x y z : Nat) (dirt_count : Nat)
    (rng : List Nat) (l : Level) : Except String (Nat × List Nat × Level) :=
  let above := (get_relative_coords l x y z 0 1 0).map
    (fun c => l.get_block c.1 c.2.1 c.2.2)
  match above with
  | some id =>
    if id ≠ 0x00 then
      match gen_range rng chance with
      | .error e => .error e
      | .ok (d, rng1) =>
        let dc := dirt_count + 1
        if d = 0 then
          .ok (dc - 1, rng1,
            { l with updates := l.updates ++ [⟨l.index x y z, ID_DIRT⟩] })
        else .ok (dc, rng1, l)
    else .ok (dirt_count, rng, l)
  | none => .ok (dirt_count, rng, l)

/-- The grass-neighbor loop of the tick's dirt arm
(crates/server/src/server.rs lines 269-275). -/
def dirt_scan (ns : List (Nat × Nat × Nat)) (l : Level) : Level :=
  match ns with
  | [] => l
  | (nx, ny, nz) :: rest =>
    if l.get_block nx ny nz = ID_GRASS then
      dirt_scan rest
        { l with possible_random_updates :=
            l.possible_random_updates ++ [l.index nx ny nz] }
    else dirt_scan rest l

/-- The `NonSolid`-neighbor test of the tick's `FluidStationary` arm
(crates/server/src/server.rs lines 334-346). -/
def has_nonsolid_neighbor (ns : List (Nat × Nat × Nat)) (l : Level) :
    Except String Bool :=
  match ns with
  | [] => .ok false
  | (nx, ny, nz) :: rest =>
    match BLOCK_INFO (l.get_block nx ny nz) with
    | none => .error "missing block"
    | some info =>
      match info.block_type with
      | .NonSolid => .ok true
      | _ => has_nonsolid_neighbor rest l

/-- The body of the `for index in awaiting_update` drain loop of `tick`
(crates/server/src/server.rs lines 227-358), processing one index.  The
random draws are threaded explicitly; `expect`/`panic!` become errors with
the source's messages.  Note `tick % ticks_to_spread` uses Nat semantics
(the catalog's fluids have nonzero spread periods). -/
def tick_block (rng : List Nat) (curTick : Nat) (l : Level) (index : Nat) :
    Except String (List Nat × Level) :=
  let c := l.coordinates index
  let x := c.1
  let y := c.2.1
  let z := c.2.2
  let block_id := l.get_block x y z
  match BLOCK_INFO block_id with
  | none => .error "should never fail"
  | some block =>
    match block.block_type with
    | .Solid =>
      if block_id = ID_GRASS then
        let chance := l.rules.grass_spread_chance
        match grass_scan chance (neighbors_with_vertical_diagonals l x y z) 0 rng l with
        | .error e => .error e
        | .ok (dc1, rng1, l1) =>
          match grass_self chance x y z dc1 rng1 l1 with
          | .error e => .error e
          | .ok (dc2, rng2, l2) =>
            if 0 < dc2 then
              .ok (rng2, { l2 with possible_random_updates :=
                l2.possible_random_updates ++ [l2.index x y z] })
            else .ok (rng2, l2)
      else if block_id = ID_DIRT then
        .ok (rng, dirt_scan (neighbors_full l x y z) l)
      else .ok (rng, l)
    | .FluidFlowing stationary ticks_to_spread =>
      if !l.rules.fluid_spread then .ok (rng, l)
      else if curTick % ticks_to_spread = 0 then
        let l1 : Level := { l with updates := l.updates ++ [⟨index, stationary⟩] }
        match flow_scan block_id (neighbors_minus_up l1 x y z) l1 with
        | .error e => .error e
        | .ok l2 => .ok (rng, l2)
      else .ok (rng, { l with awaiting_update := bset_insert index l.awaiting_update })
    | .FluidStationary moving =>
      if !l.rules.fluid_spread then .ok (rng, l)
      else
        match has_nonsolid_neighbor (neighbors_minus_up l x y z) l with
        | .error e => .error e
        | .ok true =>
          let idx := l.index x y z
          .ok (rng,
            { l with updates := l.updates ++ [⟨idx, moving⟩],
                     awaiting_update := bset_insert idx l.awaiting_update })
        | .ok false => .ok (rng, l)
    | _ => .ok (rng, l)

/-- `i16::clamp` as used by the bounds check (caller guarantees lo ≤ hi;
Rust's clamp asserts it, and the dispatch theorems only use it under in-bounds
hypotheses where the assertion holds). -/
def clamp_i16 (v lo hi : Int) : Int := max lo (min v hi)

/-- The "&cUnknown block ID: 0x..." chat line (Rust `format!` with `{:0x}`). -/
def unknown_block_msg (b : Nat) : String :=
  "&cUnknown block ID: 0x" ++ String.mk (Nat.toDigits 16 b)

/-- Result of dispatching one client `SetBlock`: the level afterwards, the
packets pushed onto this session's `reply_queue` (in order), the packets
spread to every player (none on this path), and the disconnect reason when
the handler returns `Ok(Some(reason))`. -/
structure DispatchResult where
  level : Level
  reply : List ServerPacket
  broadcast : List ServerPacket
  kick : Option String
deriving DecidableEq, Repr

/-- The `ClientPacket::SetBlock` dispatch arm of `handle_stream_inner`,
src/src/server/network.rs lines 248-313: mode 0 maps to air; out-of-bounds
coordinates close the session; an unknown id gets a chat error; a permission
failure pushes the "&c" chat line and a `SetBlock` carrying the original
block back to this session only; success queues the `BlockUpdate` and, for
blocks that need it, schedules the index.  The player's permission level is
passed in (`unwrap_or_default` lookup in the source). -/
def handle_set_block (l : Level) (player_type : PlayerType) (x y z : Int)
    (mode block_type0 : Nat) : Except String DispatchResult :=
  let block_type := if mode = 0x00 then 0 else block_type0
  if clamp_i16 x 0 (as_i16 l.x_size - 1) ≠ x ∨
     clamp_i16 y 0 (as_i16 l.y_size - 1) ≠ y ∨
     clamp_i16 z 0 (as_i16 l.z_size - 1) ≠ z then
    .ok ⟨l, [], [], some "Attempt to place block out of bounds"⟩
  else
    match BLOCK_INFO block_type with
    | none => .ok ⟨l, [.Message (-1) (unknown_block_msg block_type)], [], none⟩
    | some new_block_info =>
      let block := l.get_block x.toNat y.toNat z.toNat
      match BLOCK_INFO block with
      | none => .error "missing block information for block!"
      | some block_info =>
        if perm_lt player_type new_block_info.place_permissions then
          .ok ⟨l, [.Message (-1) "&cNot allow to place this block.",
                   .SetBlock x y z block], [], none⟩
        else if perm_lt player_type block_info.break_permissions then
          .ok ⟨l, [.Message (-1) "&cNot allowed to break this block.",
                   .SetBlock x y z block], [], none⟩
        else
          let index := l.index x.toNat y.toNat z.toNat
          let l1 : Level := { l with updates := l.updates ++ [⟨index, block_type⟩] }
          let l2 : Level :=
            if new_block_info.block_type.needs_update_on_place then
              { l1 with awaiting_update := bset_insert index l1.awaiting_update }
            else l1
          .ok ⟨l2, [], [], none⟩

/-! ### Helper lemmas -/

theorem mem_of_lookup_some {β : Type} (l : List (Nat × β)) (a : Nat) (b : β)
    (h : l.lookup a = some b) : (a, b) ∈ l := by
  induction l with
  | nil => simp [List.lookup] at h
  | cons hd tl ih =>
    rw [List.lookup] at h
    by_cases hk : a == hd.1
    · simp only [hk, if_pos] at h
      have hb : hd.2 = b := by simpa using h
      have : (a, b) = hd := by
        cases hd
        simp_all [beq_iff_eq.mp hk]
      rw [this]
      exact List.mem_cons_self _ _
    · simp only [hk, Bool.false_eq_true, if_false] at h
      exact List.mem_cons_of_mem _ (ih h)

theorem block_info_air : (BLOCK_INFO 0).isSome := by decide

/-- Every catalog entry with a `FluidFlowing` kind is water or lava flowing. -/
theorem table_fluid_flowing :
    ∀ p ∈ block_info_table, p.2.block_type.needs_update_on_place = true →
      p.1 = ID_WATER_FLOWING ∨ p.1 = ID_LAVA_FLOWING := by decide

theorem fluid_flowing_ids (id st ts : Nat) (bi : BlockInfo)
    (h : BLOCK_INFO id = some bi) (hb : bi.block_type = .FluidFlowing st ts) :
    id = ID_WATER_FLOWING ∨ id = ID_LAVA_FLOWING := by
  have hm := mem_of_lookup_some _ _ _ h
  have := table_fluid_flowing (id, bi) hm
  apply this
  rw [hb]
  rfl

theorem block_info_get_block (l : Level)
    (hcat : ∀ c ∈ l.blocks, (BLOCK_INFO c).isSome) (x y z : Nat) :
    (BLOCK_INFO (l.get_block x y z)).isSome := by
  unfold Level.get_block
  rw [List.getD_eq_getElem?_getD]
  rcases e : l.blocks[l.index x y z]? with _ | v
  · simpa using block_info_air
  · obtain ⟨hlt, he⟩ := List.getElem?_eq_some.mp e
    exact he ▸ hcat _ (he ▸ List.getElem_mem hlt)

theorem bset_insert_mem (i j : Nat) :
    ∀ (s : List Nat), j ∈ bset_insert i s ↔ j = i ∨ j ∈ s := by
  intro s
  induction s with
  | nil => simp [bset_insert]
  | cons x xs ih =>
    by_cases h1 : i < x
    · simp [bset_insert, h1]
    · by_cases h2 : i = x
      · subst h2
        have he : bset_insert i (i :: xs) = i :: xs := by
          simp [bset_insert, h1]
        rw [he]
        simp only [List.mem_cons]
        tauto
      · simp only [bset_insert, if_neg h1, if_neg h2, List.mem_cons, ih]
        tauto

theorem dropWhile_head?_not {α : Type} (p : α → Bool) :
    ∀ (l : List α) (c : α), (l.dropWhile p).head? = some c → p c = false := by
  intro l
  induction l with
  | nil => intro c h; simp [List.dropWhile] at h
  | cons a t ih =>
    intro c h
    by_cases hp : p a
    · rw [List.dropWhile_cons, if_pos hp] at h
      exact ih c h
    · rw [List.dropWhile_cons, if_neg hp] at h
      have : a = c := by simpa using h
      subst this
      simpa using hp

/-! ### Claim theorems -/

/-- C1: the spec claims `coordinates(index(x,y,z)) = (x,y,z)` for all in-bounds
coordinates of a level with positive dimensions.  On the 3 x 1 x 2 level the
code maps (2,0,0) to index 2 and back to (0,0,0): `Level::coordinates`
computes `x = index % z_size` instead of `x = index % x_size`, so the round
trip fails whenever the X and Z dimensions differ. -/
theorem c1_coordinates_round_trip_bug :
    (Level.new 3 1 2).index 2 0 0 = 2 ∧
    (Level.new 3 1 2).coordinates ((Level.new 3 1 2).index 2 0 0) = (0, 0, 0) ∧
    ((0, 0, 0) : Nat × Nat × Nat) ≠ (2, 0, 0) := by
  refine ⟨rfl, by decide, by decide⟩

/-- C8: `Level::apply_updates` on a level whose update queue is empty returns
the empty packet list and leaves every field of the level unchanged. -/
theorem c8_apply_updates_empty (l : Level) (h : l.updates = []) :
    Level.apply_updates l = .ok ([], l) := by
  cases l with
  | mk xs ys zs blocks weather rules aw pru upd sn pd =>
    simp only at h
    subst h
    simp [Level.apply_updates, dedup_by_index, apply_updates_loop]

theorem c8_apply_updates_empty_witness :
    Level.apply_updates (Level.new 1 1 1) = .ok ([], Level.new 1 1 1) :=
  c8_apply_updates_empty (Level.new 1 1 1) rfl

/-- C10: the wire byte for a player's permission level maps `Normal` to 0x00
and both `Moderator` and `Operator` to 0x64, so the `ServerIdentification`
and `UpdateUserType` encodings of a Moderator and an Operator are
byte-for-byte identical. -/
theorem c10_usertype_byte :
    (player_type_to_u8 .Normal = 0x00 ∧ player_type_to_u8 .Moderator = 0x64 ∧
      player_type_to_u8 .Operator = 0x64) ∧
    (∀ (w : PacketWriter) (pv : Nat) (name motd : String),
      ServerPacket.write (.ServerIdentification pv name motd .Moderator) w =
      ServerPacket.write (.ServerIdentification pv name motd .Operator) w) ∧
    (∀ w : PacketWriter,
      ServerPacket.write (.UpdateUserType .Moderator) w =
      ServerPacket.write (.UpdateUserType .Operator) w) := by
  refine ⟨⟨rfl, rfl, rfl⟩, ?_, ?_⟩ <;> intros <;>
    simp [ServerPacket.write, player_type_to_u8]

/-- C6 counterexample: the 64-byte buffer holding " a" followed by 62 spaces
decodes to "a" (the code calls Rust `str::trim`, which strips BOTH ends),
while the spec's trailing-only strip would give " a". -/
theorem c6_trailing_only_counterexample :
    try_get_string (0x20 :: 0x61 :: List.replicate 62 0x20) = .ok [0x61] ∧
    spec_strip_trailing (0x20 :: 0x61 :: List.replicate 62 0x20) = [0x20, 0x61] ∧
    ([0x61] : List Nat) ≠ [0x20, 0x61] :=
  ⟨rfl, by decide, by decide⟩

/-- C6 (amended): decoding a 64-byte string field yields the buffer's
character sequence with leading AND trailing whitespace removed: the buffer
splits as whitespace-only prefix ++ decoded ++ whitespace-only suffix, and
the decoded run neither starts nor ends with whitespace. -/
theorem c6_decode_trims_both_ends (buf : List Nat) (h : buf.length = 64) :
    ∃ lead core trail,
      try_get_string buf = .ok core ∧
      buf = lead ++ core ++ trail ∧
      (∀ c ∈ lead, is_ws c = true) ∧
      (∀ c ∈ trail, is_ws c = true) ∧
      (∀ c, core.head? = some c → is_ws c = false) ∧
      (∀ c, core.getLast? = some c → is_ws c = false) := by
  have htake : buf.take 64 = buf := List.take_of_length_le (le_of_eq h)
  have hd : buf.dropWhile is_ws =
      ((buf.dropWhile is_ws).reverse.dropWhile is_ws).reverse ++
        ((buf.dropWhile is_ws).reverse.takeWhile is_ws).reverse := by
    have h2 := List.takeWhile_append_dropWhile is_ws (buf.dropWhile is_ws).reverse
    calc buf.dropWhile is_ws
        = (buf.dropWhile is_ws).reverse.reverse := (List.reverse_reverse _).symm
      _ = ((buf.dropWhile is_ws).reverse.takeWhile is_ws ++
            (buf.dropWhile is_ws).reverse.dropWhile is_ws).reverse := by rw [h2]
      _ = _ := by rw [List.reverse_append]
  refine ⟨buf.takeWhile is_ws,
    ((buf.dropWhile is_ws).reverse.dropWhile is_ws).reverse,
    ((buf.dropWhile is_ws).reverse.takeWhile is_ws).reverse, ?_, ?_, ?_, ?_, ?_, ?_⟩
  · unfold try_get_string
    rw [if_pos (le_of_eq h.symm), htake]
    rfl
  · rw [List.append_assoc]
    conv_lhs => rw [← List.takeWhile_append_dropWhile is_ws buf]
    exact congrArg (fun t => List.takeWhile is_ws buf ++ t) hd
  · intro c hc
    exact List.mem_takeWhile_imp hc
  · intro c hc
    rw [List.mem_reverse] at hc
    exact List.mem_takeWhile_imp hc
  · intro c hc
    have hh := congrArg List.head? hd
    rw [List.head?_append, hc] at hh
    have hh2 : (buf.dropWhile is_ws).head? = some c := by simpa using hh
    exact dropWhile_head?_not is_ws buf c hh2
  · intro c hc
    rw [List.getLast?_eq_head?_reverse, List.reverse_reverse] at hc
    exact dropWhile_head?_not is_ws (buf.dropWhile is_ws).reverse c hc

theorem c6_decode_trims_both_ends_witness :
    (0x20 :: 0x62 :: List.replicate 62 0x20 : List Nat).length = 64 ∧
    ∃ lead core trail,
      try_get_string (0x20 :: 0x62 :: List.replicate 62 0x20) = .ok core ∧
      (0x20 :: 0x62 :: List.replicate 62 0x20 : List Nat) = lead ++ core ++ trail ∧
      (∀ c ∈ lead, is_ws c = true) ∧
      (∀ c ∈ trail, is_ws c = true) ∧
      (∀ c, core.head? = some c → is_ws c = false) ∧
      (∀ c, core.getLast? = some c → is_ws c = false) :=
  ⟨by decide, c6_decode_trims_both_ends _ (by decide)⟩

/-- C3: in the outgoing-queue drain, a packet whose player-id field equals the
session's own id is dropped unless its kind is `SetBlock`, `SpawnPlayer` or
`Message`, in which case it is forwarded with the id rewritten to -1; packets
with a different player-id, and packets carrying no player-id field, are
forwarded unchanged.  (No `SetBlock` ever carries a player-id, so the
`SetBlock` part of the echo set is vacuous in the first two conjuncts.) -/
theorem c3_echo_rules (own : Int) (p : ServerPacket) (rest : List ServerPacket) :
    (p.get_player_id = some own → spec_echo_kind p = false →
      drain_packets own (p :: rest) = drain_packets own rest) ∧
    (p.get_player_id = some own → spec_echo_kind p = true →
      drain_packets own (p :: rest) =
        p.set_player_id (-1) :: drain_packets own rest) ∧
    (∀ id, p.get_player_id = some id → id ≠ own →
      drain_packets own (p :: rest) = p :: drain_packets own rest) ∧
    (p.get_player_id = none →
      drain_packets own (p :: rest) = p :: drain_packets own rest) := by
  refine ⟨?_, ?_, ?_, ?_⟩ <;>
    cases p <;>
    intros <;>
    simp_all [drain_packets, ServerPacket.get_player_id, ServerPacket.should_echo,
      spec_echo_kind, ServerPacket.set_player_id]

theorem c3_echo_rules_witness :
    drain_packets 3 [ServerPacket.DespawnPlayer 3] = [] ∧
    drain_packets 3 [ServerPacket.Message 3 "hi"] =
      [ServerPacket.Message (-1) "hi"] ∧
    drain_packets 3 [ServerPacket.DespawnPlayer 2] =
      [ServerPacket.DespawnPlayer 2] ∧
    drain_packets 3 [ServerPacket.Ping] = [ServerPacket.Ping] := by
  refine ⟨?_, ?_, ?_, ?_⟩
  · exact (c3_echo_rules 3 (ServerPacket.DespawnPlayer 3) []).1 rfl rfl
  · exact (c3_echo_rules 3 (ServerPacket.Message 3 "hi") []).2.1 rfl rfl
  · exact (c3_echo_rules 3 (ServerPacket.DespawnPlayer 2) []).2.2.1 2 rfl
      (by decide)
  · exact (c3_echo_rules 3 ServerPacket.Ping []).2.2.2 rfl

theorem neighbor_notify_ok :
    ∀ (ns : List (Nat × Nat × Nat)) (l : Level),
      (∀ c ∈ l.blocks, (BLOCK_INFO c).isSome) →
      ∃ l2, neighbor_notify ns l = .ok l2 ∧ l2.blocks = l.blocks ∧
        l2.updates = l.updates := by
  intro ns
  induction ns with
  | nil => exact fun l _ => ⟨l, rfl, rfl, rfl⟩
  | cons n rest ih =>
    intro l hcat
    obtain ⟨nx, ny, nz⟩ := n
    have hs := block_info_get_block l hcat nx ny nz
    rcases e : BLOCK_INFO (l.get_block nx ny nz) with _ | info
    · rw [e] at hs
      simp at hs
    · by_cases hn : info.block_type.needs_update_when_neighbor_changed
      · obtain ⟨l2, h1, h2, h3⟩ := ih
          { l with awaiting_update :=
              bset_insert (l.index nx ny nz) l.awaiting_update } hcat
        refine ⟨l2, ?_, h2, h3⟩
        simp only [neighbor_notify]
        rw [e]
        simp only [hn, if_pos]
        exact h1
      · obtain ⟨l2, h1, h2, h3⟩ := ih l hcat
        refine ⟨l2, ?_, h2, h3⟩
        simp only [neighbor_notify]
        rw [e]
        simp only [hn, Bool.false_eq_true, if_false]
        exact h1

def c2lvl : Level := { Level.new 2 1 1 with updates := [⟨0, 5⟩, ⟨0, 7⟩] }

/-- C2 counterexample: queueing updates [(0,5), (0,7)] in that order and
applying them leaves block 5 (the FIRST of the duplicate pair) at index 0 and
emits one `SetBlock` carrying 5: `Vec::dedup_by` keeps the first of a run of
equal-index updates, not the last occurrence the claim requires. -/
theorem c2_last_wins_counterexample :
    Level.apply_updates c2lvl =
      .ok ([ServerPacket.SetBlock 0 0 0 5],
        { Level.new 2 1 1 with blocks := [5, 0] }) ∧
    (5 : Nat) ≠ 7 :=
  ⟨rfl, by decide⟩

/-- C2 (amended): for an update queue holding exactly [(i,a), (i,b)],
`apply_updates` collapses the adjacent duplicates to the FIRST occurrence:
block `a` is written at `i` and exactly one `SetBlock` packet (carrying `a`)
is emitted.  (Only adjacent duplicates are collapsed at all, since
`Vec::dedup_by` is run-based.) -/
theorem c2_dedup_keeps_first (l : Level) (i a b : Nat)
    (hu : l.updates = [⟨i, a⟩, ⟨i, b⟩])
    (hlen : i < l.blocks.length)
    (hcat : ∀ c ∈ l.blocks, (BLOCK_INFO c).isSome)
    (ha : (BLOCK_INFO a).isSome) :
    ∃ l2,
      Level.apply_updates l = .ok
        ([ServerPacket.SetBlock (as_i16 (l.coordinates i).1)
           (as_i16 (l.coordinates i).2.1) (as_i16 (l.coordinates i).2.2) a],
         l2) ∧
      l2.blocks = l.blocks.set i a ∧ l2.blocks.getD i 0 = a ∧
      l2.updates = [] := by
  unfold Level.apply_updates
  rw [hu]
  have hded : dedup_by_index [⟨i, a⟩, ⟨i, b⟩] = [⟨i, a⟩] := by
    simp [dedup_by_index, dedup_tail]
  rw [hded]
  have hcat1 : ∀ c ∈ ({ l with updates := [] } : Level).blocks.set i a,
      (BLOCK_INFO c).isSome := by
    intro c hc
    rcases List.mem_or_eq_of_mem_set hc with hm | he
    · exact hcat c hm
    · exact he ▸ ha
  obtain ⟨l2, hrun, hb2, hu2⟩ := neighbor_notify_ok _
    { l with updates := [], blocks := l.blocks.set i a } hcat1
  refine ⟨l2, ?_, ?_, ?_, ?_⟩
  · simp only [apply_updates_loop]
    rw [hrun]
    rfl
  · exact hb2
  · rw [hb2]
    rw [List.getD_eq_getElem?_getD, List.getElem?_set_eq_of_lt a hlen]
    rfl
  · exact hu2

theorem c2_dedup_keeps_first_witness :
    ∃ l2,
      Level.apply_updates c2lvl = .ok
        ([ServerPacket.SetBlock (as_i16 (c2lvl.coordinates 0).1)
           (as_i16 (c2lvl.coordinates 0).2.1) (as_i16 (c2lvl.coordinates 0).2.2) 5],
         l2) ∧
      l2.blocks = c2lvl.blocks.set 0 5 ∧ l2.blocks.getD 0 0 = 5 ∧
      l2.updates = [] :=
  c2_dedup_keeps_first c2lvl 0 5 7 rfl (by decide) (by decide) (by decide)

theorem clamp_i16_eq_self (v lo hi : Int) (h1 : lo ≤ v) (h2 : v ≤ hi) :
    clamp_i16 v lo hi = v := by
  unfold clamp_i16
  omega

/-- C7: a client `SetBlock` with in-bounds coordinates that fails the
permission check (permission below the new block's place permission, or below
the existing block's break permission) pushes exactly one "&c"-prefixed chat
line and one `SetBlock` carrying the original block onto this session's reply
queue, spreads nothing to other players, leaves the level record (blocks,
updates, awaiting_update and all) unchanged, and neither kicks nor closes the
session. -/
theorem c7_permission_denied (l : Level) (pt : PlayerType) (x y z : Int)
    (mode bt : Nat) (ni oi : BlockInfo)
    (hx : 0 ≤ x ∧ x ≤ as_i16 l.x_size - 1)
    (hy : 0 ≤ y ∧ y ≤ as_i16 l.y_size - 1)
    (hz : 0 ≤ z ∧ z ≤ as_i16 l.z_size - 1)
    (hnew : BLOCK_INFO (if mode = 0x00 then 0 else bt) = some ni)
    (hold : BLOCK_INFO (l.get_block x.toNat y.toNat z.toNat) = some oi)
    (hperm : perm_lt pt ni.place_permissions = true ∨
             perm_lt pt oi.break_permissions = true) :
    ∃ m, handle_set_block l pt x y z mode bt = .ok
        ⟨l, [ServerPacket.Message (-1) m,
             ServerPacket.SetBlock x y z (l.get_block x.toNat y.toNat z.toNat)],
         [], none⟩ ∧
      m.take 2 = "&c" := by
  have hcx := clamp_i16_eq_self x 0 (as_i16 l.x_size - 1) hx.1 hx.2
  have hcy := clamp_i16_eq_self y 0 (as_i16 l.y_size - 1) hy.1 hy.2
  have hcz := clamp_i16_eq_self z 0 (as_i16 l.z_size - 1) hz.1 hz.2
  simp only [handle_set_block, hcx, hcy, hcz, ne_eq, not_true_eq_false,
    or_self, if_false, hnew, hold]
  by_cases hp1 : perm_lt pt ni.place_permissions = true
  · exact ⟨"&cNot allow to place this block.", by rw [if_pos hp1], by decide⟩
  · have hp2 : perm_lt pt oi.break_permissions = true := by tauto
    exact ⟨"&cNot allowed to break this block.",
      by rw [if_neg hp1, if_pos hp2], by decide⟩

theorem c7_permission_denied_witness :
    ∃ m, handle_set_block (Level.new 2 2 2) .Normal 0 0 0 1 0x07 = .ok
        ⟨Level.new 2 2 2,
         [ServerPacket.Message (-1) m,
          ServerPacket.SetBlock 0 0 0
            ((Level.new 2 2 2).get_block (Int.toNat 0) (Int.toNat 0) (Int.toNat 0))],
         [], none⟩ ∧
      m.take 2 = "&c" :=
  c7_permission_denied (Level.new 2 2 2) .Normal 0 0 0 1 0x07
    ((BlockInfo.new "bedrock").perm .Moderator .Moderator)
    ((BlockInfo.new "air").btype .NonSolid)
    (by decide) (by decide) (by decide) (by decide) (by decide)
    (Or.inl (by decide))

/-- Characterization of one neighbor step of `flow_scan`: the update it
appends for a given neighbor (none when the neighbor is skipped). -/
def flow_act (block_id : Nat) (l : Level) (n : Nat × Nat × Nat) :
    Option BlockUpdate :=
  match BLOCK_INFO (l.get_block n.1 n.2.1 n.2.2) with
  | none => none
  | some bi =>
    match bi.block_type with
    | .NonSolid => some ⟨l.index n.1 n.2.1 n.2.2, block_id⟩
    | .FluidFlowing _ _ =>
      match turn_to_stone block_id (l.get_block n.1 n.2.1 n.2.2) with
      | .ok true => some ⟨l.index n.1 n.2.1 n.2.2, ID_STONE⟩
      | _ => none
    | .FluidStationary _ =>
      match turn_to_stone block_id (l.get_block n.1 n.2.1 n.2.2) with
      | .ok true => some ⟨l.index n.1 n.2.1 n.2.2, ID_STONE⟩
      | _ => none
    | _ => none


theorem turn_to_stone_ok (f g : Nat)
    (h : f = ID_WATER_FLOWING ∨ f = ID_WATER_STATIONARY ∨
         f = ID_LAVA_FLOWING ∨ f = ID_LAVA_STATIONARY) :
    ∃ bl, turn_to_stone f g = .ok bl := by
  unfold turn_to_stone
  rcases h with h | h | h | h <;> subst h
  · exact ⟨_, rfl⟩
  · exact ⟨_, rfl⟩
  · exact ⟨_, rfl⟩
  · exact ⟨_, rfl⟩

theorem flow_act_index (b : Nat) (l : Level) (n : Nat × Nat × Nat)
    (u : BlockUpdate) (h : flow_act b l n = some u) :
    u.index = l.index n.1 n.2.1 n.2.2 := by
  unfold flow_act at h
  split at h
  · exact Option.noConfusion h
  · split at h
    · rw [Option.some_inj] at h
      subst h
      rfl
    · split at h
      · rw [Option.some_inj] at h
        subst h
        rfl
      · exact Option.noConfusion h
    · split at h
      · rw [Option.some_inj] at h
        subst h
        rfl
      · exact Option.noConfusion h
    · exact Option.noConfusion h

theorem get_block_congr (l l0 : Level) (hb : l.blocks = l0.blocks)
    (hx : l.x_size = l0.x_size) (hz : l.z_size = l0.z_size) (x y z : Nat) :
    l.get_block x y z = l0.get_block x y z := by
  unfold Level.get_block Level.index
  rw [hb, hx, hz]

theorem index_congr (l l0 : Level) (hx : l.x_size = l0.x_size)
    (hz : l.z_size = l0.z_size) (x y z : Nat) :
    l.index x y z = l0.index x y z := by
  unfold Level.index
  rw [hx, hz]

/-- The `flow_scan` loop succeeds on a catalog-covered level when the flowing
block is water or lava, leaves blocks and dimensions unchanged, appends
exactly the `flow_act` updates of the visited neighbors in order, and its
`awaiting_update` additions are exactly the indices of those updates.  The
reference level `l0` fixes the blocks and dimensions the scan reads. -/
theorem flow_scan_spec_aux (b : Nat)
    (hgood : b = ID_WATER_FLOWING ∨ b = ID_WATER_STATIONARY ∨
             b = ID_LAVA_FLOWING ∨ b = ID_LAVA_STATIONARY) (l0 : Level) :
    ∀ (ns : List (Nat × Nat × Nat)) (l : Level),
      l.blocks = l0.blocks → l.x_size = l0.x_size → l.z_size = l0.z_size →
      (∀ c ∈ l.blocks, (BLOCK_INFO c).isSome) →
      ∃ l2, flow_scan b ns l = .ok l2 ∧
        l2.blocks = l.blocks ∧ l2.x_size = l.x_size ∧ l2.z_size = l.z_size ∧
        l2.updates = l.updates ++ ns.filterMap (flow_act b l0) ∧
        (∀ j, j ∈ l2.awaiting_update ↔ j ∈ l.awaiting_update ∨
          j ∈ (ns.filterMap (flow_act b l0)).map BlockUpdate.index) := by
  intro ns
  induction ns with
  | nil =>
    intro l _ _ _ _
    exact ⟨l, rfl, rfl, rfl, rfl, by simp, by simp⟩
  | cons n rest ih =>
    intro l hb0 hx0 hz0 hcat
    obtain ⟨nx, ny, nz⟩ := n
    have hgb := get_block_congr l l0 hb0 hx0 hz0 nx ny nz
    have hidx := index_congr l l0 hx0 hz0 nx ny nz
    have hs := block_info_get_block l hcat nx ny nz
    rw [hgb] at hs
    rcases e : BLOCK_INFO (l0.get_block nx ny nz) with _ | bi
    · rw [e] at hs
      simp at hs
    · rcases ebt : bi.block_type with _ | _ | _ | ⟨st, ts⟩ | ⟨mv⟩ | _
      case Solid =>
        obtain ⟨l2, h1, h2, h3, h4, h5, h6⟩ := ih l hb0 hx0 hz0 hcat
        refine ⟨l2, ?_, h2, h3, h4, ?_, ?_⟩
        · simp only [flow_scan, hgb, hidx, e, ebt]
          exact h1
        · rw [h5, List.filterMap_cons]
          simp only [flow_act, e, ebt]
        · intro j
          rw [h6, List.filterMap_cons]
          simp only [flow_act, e, ebt]
      case Slab =>
        obtain ⟨l2, h1, h2, h3, h4, h5, h6⟩ := ih l hb0 hx0 hz0 hcat
        refine ⟨l2, ?_, h2, h3, h4, ?_, ?_⟩
        · simp only [flow_scan, hgb, hidx, e, ebt]
          exact h1
        · rw [h5, List.filterMap_cons]
          simp only [flow_act, e, ebt]
        · intro j
          rw [h6, List.filterMap_cons]
          simp only [flow_act, e, ebt]
      case Rope =>
        obtain ⟨l2, h1, h2, h3, h4, h5, h6⟩ := ih l hb0 hx0 hz0 hcat
        refine ⟨l2, ?_, h2, h3, h4, ?_, ?_⟩
        · simp only [flow_scan, hgb, hidx, e, ebt]
          exact h1
        · rw [h5, List.filterMap_cons]
          simp only [flow_act, e, ebt]
        · intro j
          rw [h6, List.filterMap_cons]
          simp only [flow_act, e, ebt]
      case NonSolid =>
        obtain ⟨l2, h1, h2, h3, h4, h5, h6⟩ := ih
          { l with awaiting_update := bset_insert (l0.index nx ny nz) l.awaiting_update,
                   updates := l.updates ++ [⟨l0.index nx ny nz, b⟩] }
          hb0 hx0 hz0 hcat
        refine ⟨l2, ?_, h2, h3, h4, ?_, ?_⟩
        · simp only [flow_scan, hgb, hidx, e, ebt]
          exact h1
        · rw [h5, List.filterMap_cons]
          simp only [flow_act, e, ebt]
          simp [List.append_assoc]
        · intro j
          rw [h6, List.filterMap_cons]
          simp only [flow_act, e, ebt, List.map_cons, List.mem_cons, bset_insert_mem]
          tauto
      case FluidFlowing =>
        obtain ⟨bl, ets⟩ := turn_to_stone_ok b (l0.get_block nx ny nz) hgood
        rcases bl with _ | _
        · obtain ⟨l2, h1, h2, h3, h4, h5, h6⟩ := ih l hb0 hx0 hz0 hcat
          refine ⟨l2, ?_, h2, h3, h4, ?_, ?_⟩
          · simp only [flow_scan, hgb, hidx, e, ebt, ets]
            exact h1
          · rw [h5, List.filterMap_cons]
            simp only [flow_act, e, ebt, ets]
          · intro j
            rw [h6, List.filterMap_cons]
            simp only [flow_act, e, ebt, ets]
        · obtain ⟨l2, h1, h2, h3, h4, h5, h6⟩ := ih
            { l with awaiting_update := bset_insert (l0.index nx ny nz) l.awaiting_update,
                     updates := l.updates ++ [⟨l0.index nx ny nz, ID_STONE⟩] }
            hb0 hx0 hz0 hcat
          refine ⟨l2, ?_, h2, h3, h4, ?_, ?_⟩
          · simp only [flow_scan, hgb, hidx, e, ebt, ets]
            exact h1
          · rw [h5, List.filterMap_cons]
            simp only [flow_act, e, ebt, ets]
            simp [List.append_assoc]
          · intro j
            rw [h6, List.filterMap_cons]
            simp only [flow_act, e, ebt, ets, List.map_cons, List.mem_cons,
              bset_insert_mem]
            tauto
      case FluidStationary =>
        obtain ⟨bl, ets⟩ := turn_to_stone_ok b (l0.get_block nx ny nz) hgood
        rcases bl with _ | _
        · obtain ⟨l2, h1, h2, h3, h4, h5, h6⟩ := ih l hb0 hx0 hz0 hcat
          refine ⟨l2, ?_, h2, h3, h4, ?_, ?_⟩
          · simp only [flow_scan, hgb, hidx, e, ebt, ets]
            exact h1
          · rw [h5, List.filterMap_cons]
            simp only [flow_act, e, ebt, ets]
          · intro j
            rw [h6, List.filterMap_cons]
            simp only [flow_act, e, ebt, ets]
        · obtain ⟨l2, h1, h2, h3, h4, h5, h6⟩ := ih
            { l with awaiting_update := bset_insert (l0.index nx ny nz) l.awaiting_update,
                     updates := l.updates ++ [⟨l0.index nx ny nz, ID_STONE⟩] }
            hb0 hx0 hz0 hcat
          refine ⟨l2, ?_, h2, h3, h4, ?_, ?_⟩
          · simp only [flow_scan, hgb, hidx, e, ebt, ets]
            exact h1
          · rw [h5, List.filterMap_cons]
            simp only [flow_act, e, ebt, ets]
            simp [List.append_assoc]
          · intro j
            rw [h6, List.filterMap_cons]
            simp only [flow_act, e, ebt, ets, List.map_cons, List.mem_cons,
              bset_insert_mem]
            tauto

theorem add_in_bounds_spec (v : Nat) (r : Int) (bound : Nat) (w : Nat)
    (h : add_in_bounds v r bound = some w) :
    (w : Int) = (v : Int) + r ∧ w < bound := by
  simp only [add_in_bounds] at h
  split at h
  · split at h
    · rw [Option.some_inj] at h
      subst h
      constructor
      · rw [Int.toNat_of_nonneg]
        omega
      · omega
    · exact Option.noConfusion h
  · exact Option.noConfusion h

theorem get_relative_coords_spec (l : Level) (x y z : Nat) (rx ry rz : Int)
    (nx ny nz : Nat)
    (h : get_relative_coords l x y z rx ry rz = some (nx, ny, nz)) :
    ((nx : Int) = (x : Int) + rx ∧ nx < l.x_size) ∧
    ((ny : Int) = (y : Int) + ry ∧ ny < l.y_size) ∧
    ((nz : Int) = (z : Int) + rz ∧ nz < l.z_size) := by
  unfold get_relative_coords at h
  rcases e1 : add_in_bounds x rx l.x_size with _ | w1
  · rw [e1] at h
    simp at h
  · rw [e1] at h
    rcases e2 : add_in_bounds y ry l.y_size with _ | w2
    · rw [e2] at h
      simp at h
    · rw [e2] at h
      rcases e3 : add_in_bounds z rz l.z_size with _ | w3
      · rw [e3] at h
        simp at h
      · rw [e3] at h
        have hinj : w1 = nx ∧ w2 = ny ∧ w3 = nz := by
          simpa [Prod.ext_iff] using h
        obtain ⟨rfl, rfl, rfl⟩ := hinj
        exact ⟨add_in_bounds_spec _ _ _ _ e1, add_in_bounds_spec _ _ _ _ e2,
          add_in_bounds_spec _ _ _ _ e3⟩

theorem neighbors_minus_up_mem (l : Level) (x y z nx ny nz : Nat)
    (h : (nx, ny, nz) ∈ neighbors_minus_up l x y z) :
    (nx < l.x_size ∧ ny < l.y_size ∧ nz < l.z_size) ∧
    (nx, ny, nz) ≠ (x, y, z) := by
  unfold neighbors_minus_up get_many_relative_coords at h
  rw [List.mem_filterMap] at h
  obtain ⟨off, hoff, hrel⟩ := h
  have hoffs : off = ((0 : Int), (-1 : Int), (0 : Int)) ∨
      off = ((-1 : Int), (0 : Int), (0 : Int)) ∨
      off = ((1 : Int), (0 : Int), (0 : Int)) ∨
      off = ((0 : Int), (0 : Int), (-1 : Int)) ∨
      off = ((0 : Int), (0 : Int), (1 : Int)) := by
    simpa [NEIGHBORS] using hoff
  rcases hoffs with ho | ho | ho | ho | ho <;> subst ho
  all_goals
    obtain ⟨⟨hx1, hx2⟩, ⟨hy1, hy2⟩, ⟨hz1, hz2⟩⟩ :=
      get_relative_coords_spec l x y z _ _ _ nx ny nz hrel
  all_goals refine ⟨⟨hx2, hy2, hz2⟩, fun he => ?_⟩
  all_goals rw [Prod.mk.injEq, Prod.mk.injEq] at he
  all_goals dsimp only at hx1 hy1 hz1
  all_goals omega

theorem index_inj (l : Level) (a b c d e f2 : Nat)
    (ha : a < l.x_size) (hc : c < l.z_size)
    (hd : d < l.x_size) (hf : f2 < l.z_size)
    (h : l.index a b c = l.index d e f2) : a = d ∧ b = e ∧ c = f2 := by
  unfold Level.index at h
  have hxs : 0 < l.x_size := lt_of_le_of_lt (Nat.zero_le a) ha
  have hzs : 0 < l.z_size := lt_of_le_of_lt (Nat.zero_le c) hc
  have h1 : a + l.x_size * (c + l.z_size * b) =
      d + l.x_size * (f2 + l.z_size * e) := by ring_nf; ring_nf at h; linarith
  have had : a = d := by
    have ha' := congrArg (· % l.x_size) h1
    simpa [Nat.add_mul_mod_self_left, Nat.mod_eq_of_lt ha,
      Nat.mod_eq_of_lt hd] using ha'
  subst had
  have h2 : c + l.z_size * b = f2 + l.z_size * e :=
    Nat.eq_of_mul_eq_mul_left hxs (Nat.add_left_cancel h1)
  have hcf : c = f2 := by
    have hc' := congrArg (· % l.z_size) h2
    simpa [Nat.add_mul_mod_self_left, Nat.mod_eq_of_lt hc,
      Nat.mod_eq_of_lt hf] using hc'
  subst hcf
  exact ⟨rfl, Nat.eq_of_mul_eq_mul_left hzs (Nat.add_left_cancel h2), rfl⟩

/-- C5: processing a `FluidFlowing` block (flowing id `f`, parameters
`(st, ts)`) at index `i` in the tick drain with fluid spread enabled: on a
spread tick the settle update (i, st) is queued and every in-bounds non-up
neighbor of `NonSolid` kind gets an update with the same flowing id queued at
its index and that index inserted into `awaiting_update`; on a non-spread
tick the index is re-inserted into `awaiting_update` and nothing else
changes. -/
theorem c5_fluid_flowing_arm (rng : List Nat) (curTick i : Nat) (l : Level)
    (x y z f st ts : Nat) (bi : BlockInfo)
    (hco : l.coordinates i = (x, y, z))
    (hfs : l.rules.fluid_spread = true)
    (hcat : ∀ c ∈ l.blocks, (BLOCK_INFO c).isSome)
    (hb : l.get_block x y z = f)
    (hbi : BLOCK_INFO f = some bi)
    (hbt : bi.block_type = .FluidFlowing st ts) :
    (curTick % ts = 0 → ∃ l2,
      tick_block rng curTick l i = .ok (rng, l2) ∧
      (⟨i, st⟩ : BlockUpdate) ∈ l2.updates ∧
      (∀ nx ny nz nbi, (nx, ny, nz) ∈ neighbors_minus_up l x y z →
        BLOCK_INFO (l.get_block nx ny nz) = some nbi →
        nbi.block_type = .NonSolid →
        (⟨l.index nx ny nz, f⟩ : BlockUpdate) ∈ l2.updates ∧
        l.index nx ny nz ∈ l2.awaiting_update)) ∧
    (curTick % ts ≠ 0 →
      tick_block rng curTick l i =
        .ok (rng, { l with awaiting_update := bset_insert i l.awaiting_update })) := by
  have hgood : f = ID_WATER_FLOWING ∨ f = ID_WATER_STATIONARY ∨
      f = ID_LAVA_FLOWING ∨ f = ID_LAVA_STATIONARY := by
    rcases fluid_flowing_ids f st ts bi hbi hbt with h | h
    · exact Or.inl h
    · exact Or.inr (Or.inr (Or.inl h))
  constructor
  · intro hsp
    obtain ⟨l2, hrun, hbk, hxs, hzs, hup, haw⟩ := flow_scan_spec_aux f hgood l
      (neighbors_minus_up { l with updates := l.updates ++ [⟨i, st⟩] } x y z)
      { l with updates := l.updates ++ [⟨i, st⟩] } rfl rfl rfl hcat
    refine ⟨l2, ?_, ?_, ?_⟩
    · simp only [tick_block, hco, hb, hbi, hbt, hfs, Bool.not_true,
        Bool.false_eq_true, if_false, hsp, if_pos]
      rw [hrun]
    · rw [hup]
      simp [List.mem_append]
    · intro nx ny nz nbi hn hnbi hnns
      have hact : flow_act f l (nx, ny, nz) = some ⟨l.index nx ny nz, f⟩ := by
        simp only [flow_act, hnbi, hnns]
      have hmem : (⟨l.index nx ny nz, f⟩ : BlockUpdate) ∈
          List.filterMap (flow_act f l)
            (neighbors_minus_up { l with updates := l.updates ++ [⟨i, st⟩] } x y z) :=
        List.mem_filterMap.mpr ⟨(nx, ny, nz), hn, hact⟩
      constructor
      · rw [hup]
        exact List.mem_append_right _ hmem
      · rw [haw]
        exact Or.inr (List.mem_map.mpr ⟨_, hmem, rfl⟩)
  · intro hsp
    simp only [tick_block, hco, hb, hbi, hbt, hfs, Bool.not_true,
      Bool.false_eq_true, if_false, if_neg hsp]

/-- A 3 x 1 x 3 level with flowing water at (1,0,1) (index 4) and flowing lava
at (2,0,1) (index 5). -/
def c45lvl : Level :=
  { Level.new 3 1 3 with blocks := [0, 0, 0, 0, 8, 10, 0, 0, 0] }

theorem c5_fluid_flowing_arm_witness :
    ∃ l2, tick_block [] 0 c45lvl 4 = .ok ([], l2) ∧
      (⟨4, 9⟩ : BlockUpdate) ∈ l2.updates ∧
      (∀ nx ny nz nbi, (nx, ny, nz) ∈ neighbors_minus_up c45lvl 1 0 1 →
        BLOCK_INFO (c45lvl.get_block nx ny nz) = some nbi →
        nbi.block_type = .NonSolid →
        (⟨c45lvl.index nx ny nz, 8⟩ : BlockUpdate) ∈ l2.updates ∧
        c45lvl.index nx ny nz ∈ l2.awaiting_update) :=
  (c5_fluid_flowing_arm [] 0 4 c45lvl 1 0 1 8 9 3
    (((BlockInfo.new "water_flowing").btype (.FluidFlowing 0x09 3)).perm
      .Moderator .Normal)
    (by decide) rfl (by decide) (by decide) (by decide) (by decide)).1
    (by decide)

/-- C4: on a spread tick of a flowing fluid at index `i` (with fluid spread
enabled), an in-bounds non-up neighbor holding the opposite fluid (flowing or
stationary, water against lava in either direction) gets an update queued
turning the neighbor's index to STONE; a neighbor holding the same fluid gets
no update queued at its index by this processing. -/
theorem c4_fluid_interaction (rng : List Nat) (curTick i : Nat) (l : Level)
    (x y z nx ny nz f st ts g : Nat) (bi nbi : BlockInfo)
    (hco : l.coordinates i = (x, y, z))
    (hi : l.index x y z = i)
    (hxb : x < l.x_size) (hzb : z < l.z_size)
    (hfs : l.rules.fluid_spread = true)
    (hcat : ∀ c ∈ l.blocks, (BLOCK_INFO c).isSome)
    (hb : l.get_block x y z = f)
    (hbi : BLOCK_INFO f = some bi)
    (hbt : bi.block_type = .FluidFlowing st ts)
    (htick : curTick % ts = 0)
    (hn : (nx, ny, nz) ∈ neighbors_minus_up l x y z)
    (hg : l.get_block nx ny nz = g)
    (hgbi : BLOCK_INFO g = some nbi)
    (hgk : (∃ a b2, nbi.block_type = .FluidFlowing a b2) ∨
           (∃ mv, nbi.block_type = .FluidStationary mv)) :
    ∃ l2, tick_block rng curTick l i = .ok (rng, l2) ∧
      (((f = ID_WATER_FLOWING ∧ (g = ID_LAVA_FLOWING ∨ g = ID_LAVA_STATIONARY)) ∨
        (f = ID_LAVA_FLOWING ∧ (g = ID_WATER_FLOWING ∨ g = ID_WATER_STATIONARY))) →
        (⟨l.index nx ny nz, ID_STONE⟩ : BlockUpdate) ∈ l2.updates) ∧
      (((f = ID_WATER_FLOWING ∧ (g = ID_WATER_FLOWING ∨ g = ID_WATER_STATIONARY)) ∨
        (f = ID_LAVA_FLOWING ∧ (g = ID_LAVA_FLOWING ∨ g = ID_LAVA_STATIONARY))) →
        ∀ u ∈ l2.updates, u ∉ l.updates → u.index ≠ l.index nx ny nz) := by
  have hgood : f = ID_WATER_FLOWING ∨ f = ID_WATER_STATIONARY ∨
      f = ID_LAVA_FLOWING ∨ f = ID_LAVA_STATIONARY := by
    rcases fluid_flowing_ids f st ts bi hbi hbt with h | h
    · exact Or.inl h
    · exact Or.inr (Or.inr (Or.inl h))
  obtain ⟨l2, hrun, hbk, hxs, hzs, hup, haw⟩ := flow_scan_spec_aux f hgood l
    (neighbors_minus_up { l with updates := l.updates ++ [⟨i, st⟩] } x y z)
    { l with updates := l.updates ++ [⟨i, st⟩] } rfl rfl rfl hcat
  refine ⟨l2, ?_, ?_, ?_⟩
  · simp only [tick_block, hco, hb, hbi, hbt, hfs, Bool.not_true,
      Bool.false_eq_true, if_false, htick, if_pos]
    rw [hrun]
  · intro hop
    have hts : turn_to_stone f g = .ok true := by
      rcases hop with ⟨hf, hgl⟩ | ⟨hf, hgl⟩ <;> subst hf <;>
        rcases hgl with hgl | hgl <;> subst hgl <;> rfl
    have hact : flow_act f l (nx, ny, nz) =
        some ⟨l.index nx ny nz, ID_STONE⟩ := by
      rcases hgk with ⟨a, b2, hk⟩ | ⟨mv, hk⟩ <;>
        simp only [flow_act, hg, hgbi, hk, hts]
    rw [hup]
    exact List.mem_append_right _ (List.mem_filterMap.mpr ⟨(nx, ny, nz), hn, hact⟩)
  · intro hsame u hu hnot heq
    have hact0 : flow_act f l (nx, ny, nz) = none := by
      have hts : turn_to_stone f g = .ok false := by
        rcases hsame with ⟨hf, hgl⟩ | ⟨hf, hgl⟩ <;> subst hf <;>
          rcases hgl with hgl | hgl <;> subst hgl <;> rfl
      rcases hgk with ⟨a, b2, hk⟩ | ⟨mv, hk⟩ <;>
        simp only [flow_act, hg, hgbi, hk, hts]
    obtain ⟨⟨hnbx, hnby, hnbz⟩, hne⟩ := neighbors_minus_up_mem l x y z nx ny nz hn
    rw [hup] at hu
    have hu' : u = (⟨i, st⟩ : BlockUpdate) ∨
        u ∈ List.filterMap (flow_act f l)
          (neighbors_minus_up { l with updates := l.updates ++ [⟨i, st⟩] } x y z) := by
      rcases List.mem_append.mp hu with h1 | h2
      · rcases List.mem_append.mp (show u ∈ l.updates ++ [(⟨i, st⟩ : BlockUpdate)] from h1)
          with h3 | h4
        · exact absurd h3 hnot
        · exact Or.inl (by simpa using h4)
      · exact Or.inr h2
    rcases hu' with rfl | hfm
    · have hix : l.index x y z = l.index nx ny nz := by
        rw [hi]
        exact heq
      obtain ⟨he1, he2, he3⟩ := index_inj l x y z nx ny nz hxb hzb hnbx hnbz hix
      exact hne (by rw [he1, he2, he3])
    · obtain ⟨n', hn'mem, hn'act⟩ := List.mem_filterMap.mp hfm
      obtain ⟨n1, n2, n3⟩ := n'
      by_cases hnn : (n1, n2, n3) = ((nx : Nat), (ny : Nat), (nz : Nat))
      · rw [hnn, hact0] at hn'act
        exact Option.noConfusion hn'act
      · have hidxu := flow_act_index f l (n1, n2, n3) u hn'act
        have hb' := neighbors_minus_up_mem l x y z n1 n2 n3 hn'mem
        have hix : l.index n1 n2 n3 = l.index nx ny nz := by
          rw [← hidxu]
          exact heq
        obtain ⟨he1, he2, he3⟩ := index_inj l n1 n2 n3 nx ny nz
          hb'.1.1 hb'.1.2.2 hnbx hnbz hix
        exact hnn (by rw [he1, he2, he3])

theorem c4_fluid_interaction_witness :
    ∃ l2, tick_block [] 0 c45lvl 4 = .ok ([], l2) ∧
      ((((8 : Nat) = ID_WATER_FLOWING ∧
          ((10 : Nat) = ID_LAVA_FLOWING ∨ (10 : Nat) = ID_LAVA_STATIONARY)) ∨
        ((8 : Nat) = ID_LAVA_FLOWING ∧
          ((10 : Nat) = ID_WATER_FLOWING ∨ (10 : Nat) = ID_WATER_STATIONARY))) →
        (⟨c45lvl.index 2 0 1, ID_STONE⟩ : BlockUpdate) ∈ l2.updates) ∧
      ((((8 : Nat) = ID_WATER_FLOWING ∧
          ((10 : Nat) = ID_WATER_FLOWING ∨ (10 : Nat) = ID_WATER_STATIONARY)) ∨
        ((8 : Nat) = ID_LAVA_FLOWING ∧
          ((10 : Nat) = ID_LAVA_FLOWING ∨ (10 : Nat) = ID_LAVA_STATIONARY))) →
        ∀ u ∈ l2.updates, u ∉ c45lvl.updates → u.index ≠ c45lvl.index 2 0 1) :=
  c4_fluid_interaction [] 0 4 c45lvl 1 0 1 2 0 1 8 9 3 10
    (((BlockInfo.new "water_flowing").btype (.FluidFlowing 0x09 3)).perm
      .Moderator .Normal)
    (((BlockInfo.new "lava_flowing").btype (.FluidFlowing 0x0b 15)).perm
      .Moderator .Normal)
    (by decide) (by decide) (by decide) (by decide) rfl (by decide) (by decide)
    (by decide) (by decide) (by decide) (by decide) (by decide) (by decide)
    (Or.inl ⟨0x0b, 15, by decide⟩)

theorem gen_range_err (rng : List Nat) (n : Nat) (e : String)
    (h : gen_range rng n = .error e) : e = "cannot sample empty range" := by
  unfold gen_range at h
  split at h
  · injection h with h2
    exact h2.symm
  · exact Except.noConfusion h

theorem flow_scan_ne_unimpl (b : Nat)
    (hgood : b = ID_WATER_FLOWING ∨ b = ID_WATER_STATIONARY ∨
             b = ID_LAVA_FLOWING ∨ b = ID_LAVA_STATIONARY) :
    ∀ (ns : List (Nat × Nat × Nat)) (l : Level),
      flow_scan b ns l ≠ .error "unimplemented fluid interactions" := by
  intro ns
  induction ns with
  | nil =>
    intro l h
    exact Except.noConfusion h
  | cons n rest ih =>
    intro l h
    obtain ⟨nx, ny, nz⟩ := n
    rcases e : BLOCK_INFO (l.get_block nx ny nz) with _ | bi
    · simp only [flow_scan, e] at h
      injection h with h2
      exact absurd h2 (by decide)
    · rcases ebt : bi.block_type with _ | _ | _ | ⟨st, ts⟩ | ⟨mv⟩ | _
      case Solid =>
        simp only [flow_scan, e, ebt] at h
        exact ih _ h
      case NonSolid =>
        simp only [flow_scan, e, ebt] at h
        exact ih _ h
      case Slab =>
        simp only [flow_scan, e, ebt] at h
        exact ih _ h
      case FluidFlowing =>
        obtain ⟨bl, ets⟩ := turn_to_stone_ok b (l.get_block nx ny nz) hgood
        rcases bl with _ | _ <;> simp only [flow_scan, e, ebt, ets] at h <;>
          exact ih _ h
      case FluidStationary =>
        obtain ⟨bl, ets⟩ := turn_to_stone_ok b (l.get_block nx ny nz) hgood
        rcases bl with _ | _ <;> simp only [flow_scan, e, ebt, ets] at h <;>
          exact ih _ h
      case Rope =>
        simp only [flow_scan, e, ebt] at h
        exact ih _ h

theorem grass_scan_ne_unimpl (chance : Nat) :
    ∀ (ns : List (Nat × Nat × Nat)) (dc : Nat) (rng : List Nat) (l : Level),
      grass_scan chance ns dc rng l ≠ .error "unimplemented fluid interactions" := by
  intro ns
  induction ns with
  | nil =>
    intro dc rng l h
    exact Except.noConfusion h
  | cons n rest ih =>
    intro dc rng l h
    obtain ⟨nx, ny, nz⟩ := n
    simp only [grass_scan] at h
    split at h
    · split at h
      · split at h
        · rename_i e1 heq
          injection h with h2
          have := gen_range_err rng chance e1 heq
          simp_all
        · split at h
          · exact ih _ _ _ h
          · exact ih _ _ _ h
      · exact ih _ _ _ h
    · exact ih _ _ _ h

theorem grass_self_ne_unimpl (chance x y z dc : Nat) (rng : List Nat)
    (l : Level) :
    grass_self chance x y z dc rng l ≠ .error "unimplemented fluid interactions" := by
  intro h
  simp only [grass_self] at h
  split at h
  · split at h
    · split at h
      · rename_i e1 heq
        injection h with h2
        have := gen_range_err rng chance e1 heq
        simp_all
      · split at h
        · exact Except.noConfusion h
        · exact Except.noConfusion h
    · exact Except.noConfusion h
  · exact Except.noConfusion h

theorem has_nonsolid_ne_unimpl :
    ∀ (ns : List (Nat × Nat × Nat)) (l : Level),
      has_nonsolid_neighbor ns l ≠ .error "unimplemented fluid interactions" := by
  intro ns
  induction ns with
  | nil =>
    intro l h
    exact Except.noConfusion h
  | cons n rest ih =>
    intro l h
    obtain ⟨nx, ny, nz⟩ := n
    rcases e : BLOCK_INFO (l.get_block nx ny nz) with _ | bi
    · simp only [has_nonsolid_neighbor, e] at h
      injection h with h2
      exact absurd h2 (by decide)
    · rcases ebt : bi.block_type with _ | _ | _ | ⟨st, ts⟩ | ⟨mv⟩ | _ <;>
        simp only [has_nonsolid_neighbor, e, ebt] at h
      case Solid => exact ih _ h
      case NonSolid => exact Except.noConfusion h
      case Slab => exact ih _ h
      case FluidFlowing => exact ih _ h
      case FluidStationary => exact ih _ h
      case Rope => exact ih _ h

/-- C9: the fluid-interaction match panics with "unimplemented fluid
interactions" for any id outside water (0x08, 0x09) and lava (0x0a, 0x0b);
the only catalog entries of `FluidFlowing` kind are 0x08 and 0x0a; and under
the precondition that every block of the level is in the catalog, processing
an index in the tick drain never reaches that panic. -/
theorem c9_fluid_panic_unreachable :
    (∀ f g : Nat,
      f ≠ ID_WATER_FLOWING → f ≠ ID_WATER_STATIONARY →
      f ≠ ID_LAVA_FLOWING → f ≠ ID_LAVA_STATIONARY →
      turn_to_stone f g = .error "unimplemented fluid interactions") ∧
    (∀ (id st ts : Nat) (bi : BlockInfo),
      BLOCK_INFO id = some bi → bi.block_type = .FluidFlowing st ts →
      id = ID_WATER_FLOWING ∨ id = ID_LAVA_FLOWING) ∧
    (∀ (rng : List Nat) (curTick : Nat) (l : Level) (i : Nat),
      (∀ c ∈ l.blocks, (BLOCK_INFO c).isSome) →
      tick_block rng curTick l i ≠ .error "unimplemented fluid interactions") := by
  refine ⟨?_, ?_, ?_⟩
  · intro f g h1 h2 h3 h4
    unfold turn_to_stone
    rw [if_neg (by tauto), if_neg (by tauto)]
  · intro id st ts bi h1 h2
    exact fluid_flowing_ids id st ts bi h1 h2
  · intro rng curTick l i hcat h
    rcases hco : l.coordinates i with ⟨x, y, z⟩
    rcases e : BLOCK_INFO (l.get_block x y z) with _ | bi
    · simp only [tick_block, hco, e] at h
      injection h with h2
      exact absurd h2 (by decide)
    · rcases ebt : bi.block_type with _ | _ | _ | ⟨st, ts⟩ | ⟨mv⟩ | _
      case Solid =>
        simp only [tick_block, hco, e, ebt] at h
        split at h
        · split at h
          · rename_i e1 heq
            injection h with h2
            exact grass_scan_ne_unimpl _ _ _ _ _ (h2 ▸ heq)
          · split at h
            · rename_i e2 heq2
              injection h with h2
              exact grass_self_ne_unimpl _ _ _ _ _ _ _ (h2 ▸ heq2)
            · split at h
              · exact Except.noConfusion h
              · exact Except.noConfusion h
        · split at h
          · exact Except.noConfusion h
          · exact Except.noConfusion h
      case NonSolid =>
        simp only [tick_block, hco, e, ebt] at h
        exact Except.noConfusion h
      case Slab =>
        simp only [tick_block, hco, e, ebt] at h
        exact Except.noConfusion h
      case FluidFlowing =>
        have hgood := fluid_flowing_ids (l.get_block x y z) st ts bi e ebt
        simp only [tick_block, hco, e, ebt] at h
        split at h
        · exact Except.noConfusion h
        · split at h
          · split at h
            · rename_i e1 heq
              injection h with h2
              refine flow_scan_ne_unimpl _ ?_ _ _ (h2 ▸ heq)
              rcases hgood with hh | hh
              · exact Or.inl hh
              · exact Or.inr (Or.inr (Or.inl hh))
            · exact Except.noConfusion h
          · exact Except.noConfusion h
      case FluidStationary =>
        simp only [tick_block, hco, e, ebt] at h
        split at h
        · exact Except.noConfusion h
        · split at h
          · rename_i e1 heq
            injection h with h2
            exact has_nonsolid_ne_unimpl _ _ (h2 ▸ heq)
          · exact Except.noConfusion h
          · exact Except.noConfusion h
      case Rope =>
        simp only [tick_block, hco, e, ebt] at h
        exact Except.noConfusion h

theorem c9_fluid_panic_unreachable_witness :
    turn_to_stone 0x05 0x00 = .error "unimplemented fluid interactions" ∧
    tick_block [] 0 (Level.new 1 1 1) 0 ≠
      .error "unimplemented fluid interactions" := by
  constructor
  · exact c9_fluid_panic_unreachable.1 0x05 0x00 (by decide) (by decide)
      (by decide) (by decide)
  · exact c9_fluid_panic_unreachable.2.2 [] 0 (Level.new 1 1 1) 0 (by decide)
